import Mathlib

set_option autoImplicit false

namespace OpenAIProxy

/-! Shallow embedding of src/openai_proxy.py: the request-forwarding pipeline of a
Flask reverse proxy (header sanitization, upstream dispatch through a tunnelling
transport, buffered vs streamed delivery, and the error-to-status mapping).
Headers and query parameters are ordered association lists, bodies are byte lists,
and the single proxy_session.request call is an oracle parameter recording what the
transport does; every transport invocation performed is returned alongside the
outward response. -/

mutual

/-- JSON values as produced by the Python json machinery (numbers restricted to
integers, which suffices for this development).  Arrays and objects carry their
own list types so that equality is decidable by structural recursion. -/
inductive Json where
  | null
  | bool (b : Bool)
  | num (n : Int)
  | str (s : String)
  | arr (elems : JsonList)
  | obj (fields : JsonFields)
  deriving DecidableEq

/-- A list of JSON values (the elements of a JSON array). -/
inductive JsonList where
  | nil
  | cons (head : Json) (tail : JsonList)
  deriving DecidableEq

/-- The ordered key-value bindings of a JSON object (Python dict insertion
order). -/
inductive JsonFields where
  | nil
  | cons (key : String) (value : Json) (tail : JsonFields)
  deriving DecidableEq

end

/-- Build object bindings from a plain list of pairs. -/
def jfields : List (String × Json) → JsonFields
  | [] => .nil
  | (k, v) :: rest => .cons k v (jfields rest)

/-- Python truthiness of a parsed JSON value, as used by the source in
conditions such as the line 97 test on json_data and the stream flag obtained
from data.get: None, False, zero, empty string, empty array and empty object
are falsy. -/
def Json.isTruthy : Json → Bool
  | .null => false
  | .bool b => b
  | .num n => decide (n ≠ 0)
  | .str s => decide (s ≠ "")
  | .arr .nil => false
  | .arr (.cons _ _) => true
  | .obj .nil => false
  | .obj (.cons _ _ _) => true

/-- Python dict.get with a default on the bindings of a parsed JSON object
(objects produced by the json parser have unique keys). -/
def objGet : JsonFields → String → Option Json
  | .nil, _ => none
  | .cons k v rest, key => if k = key then some v else objGet rest key

/-- Header and query-parameter mappings: ordered association lists, mirroring
Python dict iteration order. -/
abbrev Dict := List (String × String)

/-- ASCII lowercase of one character: the fragment of Python str.lower relevant
to header names, which are ASCII. -/
def lowerChar (c : Char) : Char :=
  if 65 ≤ c.toNat ∧ c.toNat ≤ 90 then Char.ofNat (c.toNat + 32) else c

/-- ASCII lowercase of a string, modelling str.lower applied to header names. -/
def lowerAscii (s : String) : String :=
  String.mk (s.toList.map lowerChar)

/-- Case-insensitive header lookup, modelling werkzeug request.headers.get:
the first entry whose name matches up to ASCII case. -/
def headerGet (hs : Dict) (key : String) : Option String :=
  (hs.find? (fun p => lowerAscii p.1 == lowerAscii key)).map Prod.snd

/-- Python dict assignment d[k] = v: replace the value at an existing key in
place, otherwise append the new binding at the end. -/
def dictSet (d : Dict) (k v : String) : Dict :=
  if d.any (fun p => p.1 == k) then
    d.map (fun p => if p.1 == k then (k, v) else p)
  else
    d ++ [(k, v)]

/-- Embeds forwarded_headers (lines 79-88): iterate over the inbound headers,
skipping any entry whose name lowercases to "host", and assign the rest into a
fresh dict in order.  The missing-Authorization case only logs a warning and does
not change the returned mapping. -/
def forwarded_headers (inboundHeaders : Dict) : Dict :=
  inboundHeaders.foldl
    (fun hs p => if lowerAscii p.1 == "host" then hs else dictSet hs p.1 p.2) []

/-- Result of Flask request.get_json() on the inbound POST body: parse failure
(absent or malformed body, which raises and yields a 400 response) or the parsed
JSON value, where Python None corresponds to a body that is JSON null. -/
inductive GetJsonResult where
  | failure
  | parsed (data : Json)
  deriving DecidableEq

/-- The inbound HTTP request as the Flask handlers see it: its headers, its query
parameters (request.args) and the outcome of request.get_json(). -/
structure InboundRequest where
  headers : Dict
  args : Dict
  getJson : GetJsonResult
  deriving DecidableEq

/-- Outcome of calling response.json() on an upstream response: the parsed value,
or the JSONDecodeError message. -/
inductive JsonParse where
  | ok (v : Json)
  | failed (msg : String)
  deriving DecidableEq

/-- A requests.Response returned by a successful transport call: status code,
reason phrase, final url, raw body bytes (response.content) and the outcome of
response.json(). -/
structure UpstreamResponse where
  status_code : Nat
  reason : String
  url : String
  content : List Nat
  jsonBody : JsonParse
  deriving DecidableEq

/-- What the single proxy_session.request call does when reached: return a
response, or raise one of the requests exceptions handled by the except clauses
of proxy_request (lines 139-163).  SSLError is listed separately from
ConnectionError because the source catches it first. -/
inductive TransportOutcome where
  | ok (resp : UpstreamResponse)
  | sslError (msg : String)
  | connectionError (msg : String)
  | timeout (msg : String)
  | requestException (msg : String)
  | valueError (msg : String)
  deriving DecidableEq

/-- Record of one invocation of proxy_session.request with the arguments passed
at line 105: method, url, headers, json payload, query params, stream flag and
the fixed timeout of 30. -/
structure TransportCall where
  method : String
  url : String
  headers : Dict
  jsonData : Option Json
  params : Option Dict
  stream : Bool
  timeoutSeconds : Nat
  deriving DecidableEq

/-- Body of the outward response: a jsonify payload, a streaming
text/event-stream body given by the list of emitted byte chunks, or a page
generated by the framework for an exception the handler code does not catch. -/
inductive RespBody where
  | json (v : Json)
  | stream (mimetype : String) (chunks : List (List Nat))
  | framework
  deriving DecidableEq

/-- Outcome of handling one inbound request: outward status, outward body, and
the list of transport invocations performed while handling it. -/
structure ProxyResult where
  status : Nat
  body : RespBody
  calls : List TransportCall
  deriving DecidableEq

/-- jsonify of a single-field error object, the shape used by every error branch
of the source. -/
def errorJson (msg : String) : RespBody :=
  .json (.obj (jfields [("error", .str msg)]))

/-- Message of the HTTPError raised by requests raise_for_status: for a status in
[400, 500) the text names a client error, for [500, 600) a server error, quoting
the status code, the reason phrase and the url. -/
def httpErrorMsg (r : UpstreamResponse) : String :=
  if r.status_code < 500 then
    toString r.status_code ++ " Client Error: " ++ r.reason ++ " for url: " ++ r.url
  else
    toString r.status_code ++ " Server Error: " ++ r.reason ++ " for url: " ++ r.url

/-- Python bytes.splitlines as used by requests iter_lines over the full body:
split on LF (10), CR (13) and CRLF, with no trailing empty line when the data
ends in a line break.  The accumulator holds the current line reversed. -/
def splitlinesAux : List Nat → List Nat → List (List Nat)
  | [], acc => if acc.isEmpty then [] else [acc.reverse]
  | 13 :: 10 :: rest, acc => acc.reverse :: splitlinesAux rest []
  | 13 :: rest, acc => acc.reverse :: splitlinesAux rest []
  | 10 :: rest, acc => acc.reverse :: splitlinesAux rest []
  | b :: rest, acc => splitlinesAux rest (b :: acc)

/-- The lines of a byte body, Python bytes.splitlines. -/
def bytesSplitlines (bs : List Nat) : List (List Nat) :=
  splitlinesAux bs []

/-- Strict UTF-8 decoding of a byte list, modelling Python bytes.decode with the
utf-8 codec: rejects stray continuation bytes, overlong encodings, surrogates and
code points beyond 0x10FFFF. -/
def utf8DecodeChars : List Nat → Option (List Char)
  | [] => some []
  | b :: rest =>
    if b < 128 then
      (utf8DecodeChars rest).map (fun cs => Char.ofNat b :: cs)
    else if b < 194 then
      none
    else if b < 224 then
      match rest with
      | c1 :: rest2 =>
        if 128 ≤ c1 ∧ c1 ≤ 191 then
          (utf8DecodeChars rest2).map
            (fun cs => Char.ofNat ((b - 192) * 64 + (c1 - 128)) :: cs)
        else none
      | [] => none
    else if b < 240 then
      match rest with
      | c1 :: c2 :: rest2 =>
        if ((if b = 224 then 160 else 128) ≤ c1 ∧ c1 ≤ (if b = 237 then 159 else 191)) ∧
            (128 ≤ c2 ∧ c2 ≤ 191) then
          (utf8DecodeChars rest2).map
            (fun cs => Char.ofNat ((b - 224) * 4096 + (c1 - 128) * 64 + (c2 - 128)) :: cs)
        else none
      | _ => none
    else if b < 245 then
      match rest with
      | c1 :: c2 :: c3 :: rest2 =>
        if ((if b = 240 then 144 else 128) ≤ c1 ∧ c1 ≤ (if b = 244 then 143 else 191)) ∧
            (128 ≤ c2 ∧ c2 ≤ 191) ∧ (128 ≤ c3 ∧ c3 ≤ 191) then
          (utf8DecodeChars rest2).map
            (fun cs =>
              Char.ofNat ((b - 240) * 262144 + (c1 - 128) * 4096 + (c2 - 128) * 64 + (c3 - 128))
                :: cs)
        else none
      | _ => none
    else none

/-- Python bytes.decode of the whole body with the utf-8 codec. -/
def utf8Decode (bs : List Nat) : Option String :=
  (utf8DecodeChars bs).map String.mk

/-- Lowercase hexadecimal digit. -/
def hexDigit (n : Nat) : Char :=
  if n < 10 then Char.ofNat (48 + n) else Char.ofNat (87 + n)

/-- Python repr of one byte inside a bytes literal whose quote character has code
q: backslash, the quote, tab, LF and CR are escaped, printable ASCII is kept, and
everything else becomes a two-digit hex escape. -/
def byteReprChar (q : Nat) (b : Nat) : List Char :=
  if b = 92 then [Char.ofNat 92, Char.ofNat 92]
  else if b = q then [Char.ofNat 92, Char.ofNat q]
  else if b = 9 then [Char.ofNat 92, Char.ofNat 116]
  else if b = 10 then [Char.ofNat 92, Char.ofNat 110]
  else if b = 13 then [Char.ofNat 92, Char.ofNat 114]
  else if 32 ≤ b ∧ b ≤ 126 then [Char.ofNat b]
  else [Char.ofNat 92, Char.ofNat 120, hexDigit (b / 16), hexDigit (b % 16)]

/-- Python str of a bytes object: the repr, a b-prefixed quoted literal using a
single quote, or a double quote when the bytes contain a single quote but no
double quote. -/
def bytesRepr (bs : List Nat) : String :=
  let q : Nat := if bs.contains 39 && !bs.contains 34 then 34 else 39
  String.mk (Char.ofNat 98 :: Char.ofNat q :: ((bs.map (byteReprChar q)).flatten ++ [Char.ofNat q]))

/-- Python string slice s[:n], counting code points. -/
def takeChars (n : Nat) (s : String) : String :=
  String.mk (s.toList.take n)

/-- The raw_content fallback of lines 132-136: decode the body as UTF-8 and keep
the first 400 characters; if decoding raises, keep the first 400 characters of
str applied to the bytes. -/
def rawSnippet (bs : List Nat) : String :=
  match utf8Decode bs with
  | some s => takeChars 400 s
  | none => takeChars 400 (bytesRepr bs)

/-- The configured upstream base url, CONFIG default. -/
def OPENAI_BASE_URL : String := "https://api.openai.com/v1"

/-- Headers sent upstream (lines 96-98): the headers argument when it is a truthy
dict, else forwarded_headers of the inbound headers; then Content-Type is set to
application/json when json_data is truthy (Python truthiness: a None or empty
body adds nothing). -/
def sentHeaders (inbound : InboundRequest) (headersArg : Option Dict)
    (json_data : Option Json) : Dict :=
  let headers0 : Dict :=
    match headersArg with
    | some hs => if hs.isEmpty then forwarded_headers inbound.headers else hs
    | none => forwarded_headers inbound.headers
  match json_data with
  | some v => if v.isTruthy then dictSet headers0 "Content-Type" "application/json" else headers0
  | none => headers0

/-- The one transport invocation performed by the dispatch at lines 105-113: the
url is base url, a slash and the endpoint path, the headers are the sanitized
mapping with the optional Content-Type addition, and the timeout is the fixed 30. -/
def mkCall (inbound : InboundRequest) (headersArg : Option Dict) (json_data : Option Json)
    (method endpoint : String) (params : Option Dict) (stream : Bool) : TransportCall :=
  ⟨method, OPENAI_BASE_URL ++ "/" ++ endpoint, sentHeaders inbound headersArg json_data,
    json_data, params, stream, 30⟩

/-- Embeds proxy_request (lines 91-163).  The missing-credential gate uses the
falsiness of request.headers.get("Authorization") (absent header or empty
value).  On a returned response, raise_for_status raises HTTPError exactly for
statuses in [400, 600); the except clause computes the outward status with a
conditional on the truthiness of e.response, and requests Response truthiness is
the ok predicate (status below 400), which is false for every response that made
raise_for_status raise, so the else arm 500 is taken.  The streaming branch
yields every non-empty line of the body suffixed with two LF bytes under the
text/event-stream mimetype; the buffered branch re-serializes response.json() or
degrades to the rawSnippet payload with status 500.  Transport exceptions map to
the statuses of the remaining except clauses. -/
def proxy_request (inbound : InboundRequest) (outcome : TransportOutcome)
    (method endpoint : String) (headersArg : Option Dict) (json_data : Option Json)
    (params : Option Dict) (stream : Bool) : ProxyResult :=
  if (headerGet inbound.headers "Authorization").getD "" = "" then
    ⟨401, errorJson "Authorization header is required", []⟩
  else
    match outcome with
    | .ok resp =>
        if 400 ≤ resp.status_code ∧ resp.status_code < 600 then
          ⟨if resp.status_code < 400 then resp.status_code else 500,
            errorJson (httpErrorMsg resp),
            [mkCall inbound headersArg json_data method endpoint params stream]⟩
        else if stream then
          ⟨200,
            .stream "text/event-stream"
              (((bytesSplitlines resp.content).filter (fun l => !l.isEmpty)).map
                (fun l => l ++ [10, 10])),
            [mkCall inbound headersArg json_data method endpoint params stream]⟩
        else
          match resp.jsonBody with
          | .ok v =>
              ⟨200, .json v, [mkCall inbound headersArg json_data method endpoint params stream]⟩
          | .failed msg =>
              ⟨500,
                .json (.obj (jfields
                  [("error", .str ("Invalid JSON response: " ++ msg)),
                   ("raw_content", .str (rawSnippet resp.content))])),
                [mkCall inbound headersArg json_data method endpoint params stream]⟩
    | .sslError msg =>
        ⟨502, errorJson ("SSL error: " ++ msg),
          [mkCall inbound headersArg json_data method endpoint params stream]⟩
    | .connectionError _ =>
        ⟨503, errorJson "Connection failed",
          [mkCall inbound headersArg json_data method endpoint params stream]⟩
    | .timeout _ =>
        ⟨504, errorJson "Request timed out",
          [mkCall inbound headersArg json_data method endpoint params stream]⟩
    | .requestException msg =>
        ⟨500, errorJson msg,
          [mkCall inbound headersArg json_data method endpoint params stream]⟩
    | .valueError _ =>
        ⟨400, errorJson "Invalid JSON data",
          [mkCall inbound headersArg json_data method endpoint params stream]⟩

/-- Embeds proxy_generic_get (lines 166-172): dispatch a GET for the path,
forwarding the query parameters and nothing else. -/
def proxy_generic_get (inbound : InboundRequest) (outcome : TransportOutcome)
    (path : String) : ProxyResult :=
  proxy_request inbound outcome "GET" path none none (some inbound.args) false

/-- Embeds proxy_generic_post (lines 174-190).  A get_json failure raises inside
request.get_json (Flask BadRequest, outward 400; the except ValueError clause of
the source cannot fire for it).  A parsed None, that is a JSON null body, takes
the explicit 400 branch.  On any other non-object value, data.get raises
AttributeError, which no except clause catches, so the framework produces its
generic 500 page without dispatching.  Otherwise the whole object is dispatched
with the truthiness of its stream field (default False). -/
def proxy_generic_post (inbound : InboundRequest) (outcome : TransportOutcome)
    (path : String) : ProxyResult :=
  match inbound.getJson with
  | .failure => ⟨400, .framework, []⟩
  | .parsed data =>
    match data with
    | .null => ⟨400, errorJson "Request body must be JSON", []⟩
    | .obj fields =>
        proxy_request inbound outcome "POST" path none (some (.obj fields)) none
          (((objGet fields "stream").getD (.bool false)).isTruthy)
    | _ => ⟨500, .framework, []⟩

/-! Concrete fixtures used by witnesses and counterexamples. -/

/-- ASCII text as a byte list. -/
def asciiBytes (s : String) : List Nat := s.toList.map Char.toNat

/-- A concrete inbound request carrying an Authorization header. -/
def inboundWith (gj : GetJsonResult) : InboundRequest :=
  ⟨[("Host", "proxy.local"), ("Authorization", "Bearer k"), ("Accept", "application/json")],
    [("limit", "5")], gj⟩

/-- A concrete inbound request with no Authorization header. -/
def inboundNoAuth : InboundRequest :=
  ⟨[("Host", "proxy.local"), ("Accept", "application/json")], [("limit", "5")], .failure⟩

/-- A concrete upstream 404 whose body is the JSON object with error "not found". -/
def resp404 : UpstreamResponse :=
  ⟨404, "Not Found", "https://api.openai.com/v1/models",
    asciiBytes "\x7b\"error\":\"not found\"\x7d",
    .ok (.obj (jfields [("error", .str "not found")]))⟩

/-- A concrete upstream 200 whose body is not valid JSON. -/
def resp200NotJson : UpstreamResponse :=
  ⟨200, "OK", "https://api.openai.com/v1/models", asciiBytes "not-json",
    .failed "Expecting value: line 1 column 1 (char 0)"⟩

/-- A concrete upstream response with status 600, outside the range for which
raise_for_status raises, carrying two data lines. -/
def resp600 : UpstreamResponse :=
  ⟨600, "Unknown", "https://api.openai.com/v1/chat/completions",
    asciiBytes "data: one\ndata: two\n", .failed "Extra data: line 1 column 5 (char 4)"⟩

/-- A concrete upstream 200 emitting three line-delimited chunks. -/
def resp200Stream : UpstreamResponse :=
  ⟨200, "OK", "https://api.openai.com/v1/chat/completions",
    asciiBytes "data: one\n\ndata: two\n\ndata: [DONE]\n\n",
    .failed "Extra data: line 1 column 5 (char 4)"⟩

/-! Helper lemmas about the dict operations and the dispatch call list. -/

theorem lookup_cons_eq (k a b : String) (t : Dict) (h : (k == a) = true) :
    List.lookup k ((a, b) :: t) = some b := by
  simp only [List.lookup, h]

theorem lookup_cons_ne (k a b : String) (t : Dict) (h : (k == a) = false) :
    List.lookup k ((a, b) :: t) = List.lookup k t := by
  simp only [List.lookup, h]

theorem lookup_mapSet_self (d : Dict) (k v : String) (h : ∃ p ∈ d, p.1 = k) :
    List.lookup k (d.map (fun p => if p.1 == k then (k, v) else p)) = some v := by
  induction d with
  | nil => simp at h
  | cons q t ih =>
    obtain ⟨a, b⟩ := q
    simp only [List.map_cons]
    by_cases hq : a = k
    · rw [if_pos (beq_iff_eq.mpr hq)]
      exact lookup_cons_eq k k v _ (beq_iff_eq.mpr rfl)
    · rw [if_neg (fun hb => hq (beq_iff_eq.mp hb))]
      have hmem : ∃ p ∈ t, p.1 = k := by
        rcases h with ⟨p, hp, hpk⟩
        rcases List.mem_cons.mp hp with rfl | hp2
        · exact absurd hpk hq
        · exact ⟨p, hp2, hpk⟩
      rw [lookup_cons_ne k a b _ (beq_eq_false_iff_ne.mpr (Ne.symm hq))]
      exact ih hmem

theorem lookup_mapSet_ne (d : Dict) (k v k2 : String) (hne : k2 ≠ k) :
    List.lookup k2 (d.map (fun p => if p.1 == k then (k, v) else p)) =
      List.lookup k2 d := by
  induction d with
  | nil => simp
  | cons q t ih =>
    obtain ⟨a, b⟩ := q
    simp only [List.map_cons]
    by_cases hq : a = k
    · rw [if_pos (beq_iff_eq.mpr hq)]
      rw [lookup_cons_ne k2 k v _ (beq_eq_false_iff_ne.mpr hne)]
      rw [lookup_cons_ne k2 a b _ (beq_eq_false_iff_ne.mpr (hq ▸ hne))]
      exact ih
    · rw [if_neg (fun hb => hq (beq_iff_eq.mp hb))]
      by_cases hk2 : k2 = a
      · rw [lookup_cons_eq k2 a b _ (beq_iff_eq.mpr hk2),
          lookup_cons_eq k2 a b _ (beq_iff_eq.mpr hk2)]
      · rw [lookup_cons_ne k2 a b _ (beq_eq_false_iff_ne.mpr hk2),
          lookup_cons_ne k2 a b _ (beq_eq_false_iff_ne.mpr hk2)]
        exact ih

theorem lookup_append_self (d : Dict) (k v : String) :
    List.lookup k (d ++ [(k, v)]) = some ((List.lookup k d).getD v) := by
  induction d with
  | nil =>
    rw [List.nil_append, lookup_cons_eq k k v [] (beq_iff_eq.mpr rfl)]
    rfl
  | cons q t ih =>
    obtain ⟨a, b⟩ := q
    simp only [List.cons_append]
    by_cases hq : k = a
    · rw [lookup_cons_eq k a b _ (beq_iff_eq.mpr hq),
        lookup_cons_eq k a b _ (beq_iff_eq.mpr hq)]
      rfl
    · rw [lookup_cons_ne k a b _ (beq_eq_false_iff_ne.mpr hq),
        lookup_cons_ne k a b _ (beq_eq_false_iff_ne.mpr hq)]
      exact ih

theorem lookup_append_ne (d : Dict) (k v k2 : String) (hne : k2 ≠ k) :
    List.lookup k2 (d ++ [(k, v)]) = List.lookup k2 d := by
  induction d with
  | nil =>
    simp only [List.nil_append]
    rw [lookup_cons_ne k2 k v [] (beq_eq_false_iff_ne.mpr hne)]
  | cons q t ih =>
    obtain ⟨a, b⟩ := q
    simp only [List.cons_append]
    by_cases hq : k2 = a
    · rw [lookup_cons_eq k2 a b _ (beq_iff_eq.mpr hq)]
      rw [lookup_cons_eq k2 a b _ (beq_iff_eq.mpr hq)]
    · rw [lookup_cons_ne k2 a b _ (beq_eq_false_iff_ne.mpr hq),
        lookup_cons_ne k2 a b _ (beq_eq_false_iff_ne.mpr hq)]
      exact ih

theorem lookup_eq_none_of_forall_ne (d : Dict) (k : String) (h : ∀ p ∈ d, p.1 ≠ k) :
    List.lookup k d = none := by
  induction d with
  | nil => rfl
  | cons q t ih =>
    obtain ⟨a, b⟩ := q
    rw [lookup_cons_ne k a b _
      (beq_eq_false_iff_ne.mpr (Ne.symm (h (a, b) (List.mem_cons_self _ _))))]
    exact ih (fun p hp => h p (List.mem_cons_of_mem _ hp))

theorem lookup_dictSet_self (d : Dict) (k v : String) :
    List.lookup k (dictSet d k v) = some v := by
  unfold dictSet
  by_cases h : d.any (fun p => p.1 == k) = true
  · rw [if_pos h]
    refine lookup_mapSet_self d k v ?_
    rcases List.any_eq_true.mp h with ⟨p, hp, hpk⟩
    exact ⟨p, hp, beq_iff_eq.mp hpk⟩
  · rw [if_neg h]
    have hnone : List.lookup k d = none := by
      refine lookup_eq_none_of_forall_ne d k ?_
      intro p hp hpk
      exact h (List.any_eq_true.mpr ⟨p, hp, beq_iff_eq.mpr hpk⟩)
    rw [lookup_append_self, hnone]
    rfl

theorem lookup_dictSet_ne (d : Dict) (k v k2 : String) (hne : k2 ≠ k) :
    List.lookup k2 (dictSet d k v) = List.lookup k2 d := by
  unfold dictSet
  by_cases h : d.any (fun p => p.1 == k) = true
  · rw [if_pos h]; exact lookup_mapSet_ne d k v k2 hne
  · rw [if_neg h]; exact lookup_append_ne d k v k2 hne

theorem dictSet_of_not_mem (d : Dict) (k v : String) (h : ∀ p ∈ d, p.1 ≠ k) :
    dictSet d k v = d ++ [(k, v)] := by
  unfold dictSet
  rw [if_neg]
  intro hany
  rcases List.any_eq_true.mp hany with ⟨p, hp, hpk⟩
  exact h p hp (beq_iff_eq.mp hpk)

theorem forwarded_aux (hs : Dict) : ∀ acc : Dict,
    (∀ p ∈ hs, ∀ q ∈ acc, p.1 ≠ q.1) →
    (hs.map Prod.fst).Nodup →
    hs.foldl (fun d p => if lowerAscii p.1 == "host" then d else dictSet d p.1 p.2) acc =
      acc ++ hs.filter (fun p => !(lowerAscii p.1 == "host")) := by
  induction hs with
  | nil => intro acc _ _; simp
  | cons p t ih =>
    intro acc hdisj hnodup
    have hnodup2 : (t.map Prod.fst).Nodup := (List.nodup_cons.mp hnodup).2
    have hhead : p.1 ∉ t.map Prod.fst := (List.nodup_cons.mp hnodup).1
    simp only [List.foldl_cons]
    by_cases hhost : lowerAscii p.1 = "host"
    · rw [if_pos (beq_iff_eq.mpr hhost)]
      rw [ih acc (fun r hr q hq => hdisj r (List.mem_cons_of_mem p hr) q hq) hnodup2]
      have hb : (lowerAscii p.1 == "host") = true := beq_iff_eq.mpr hhost
      simp [List.filter_cons, hb]
    · have hb : (lowerAscii p.1 == "host") = false := beq_eq_false_iff_ne.mpr hhost
      rw [if_neg (fun hx => hhost (beq_iff_eq.mp hx))]
      rw [dictSet_of_not_mem acc p.1 p.2
        (fun q hq => Ne.symm (hdisj p (List.mem_cons_self p t) q hq))]
      rw [ih (acc ++ [(p.1, p.2)]) ?_ hnodup2]
      · have hfilter :
            List.filter (fun r => !(lowerAscii r.1 == "host")) (p :: t) =
              p :: t.filter (fun r => !(lowerAscii r.1 == "host")) := by
          simp [List.filter_cons, hb]
        rw [hfilter, List.append_assoc]
        rfl
      · intro r hr q hq
        rcases List.mem_append.mp hq with hq1 | hq2
        · exact hdisj r (List.mem_cons_of_mem p hr) q hq1
        · have hq3 : q = (p.1, p.2) := by simpa using hq2
          subst hq3
          intro heq
          exact hhead (heq ▸ List.mem_map_of_mem Prod.fst hr)

theorem forwarded_headers_eq_filter (hs : Dict) (hnodup : (hs.map Prod.fst).Nodup) :
    forwarded_headers hs = hs.filter (fun p => !(lowerAscii p.1 == "host")) := by
  unfold forwarded_headers
  simpa using forwarded_aux hs [] (by simp) hnodup

theorem proxy_request_noauth (inbound : InboundRequest) (outcome : TransportOutcome)
    (method endpoint : String) (headersArg : Option Dict) (json_data : Option Json)
    (params : Option Dict) (stream : Bool)
    (hauth : (headerGet inbound.headers "Authorization").getD "" = "") :
    proxy_request inbound outcome method endpoint headersArg json_data params stream =
      ⟨401, errorJson "Authorization header is required", []⟩ := by
  unfold proxy_request
  rw [if_pos hauth]

theorem proxy_request_calls_eq (inbound : InboundRequest) (outcome : TransportOutcome)
    (method endpoint : String) (headersArg : Option Dict) (json_data : Option Json)
    (params : Option Dict) (stream : Bool)
    (hauth : ¬ (headerGet inbound.headers "Authorization").getD "" = "") :
    (proxy_request inbound outcome method endpoint headersArg json_data params stream).calls =
      [mkCall inbound headersArg json_data method endpoint params stream] := by
  unfold proxy_request
  rw [if_neg hauth]
  cases outcome with
  | ok resp =>
    by_cases h400 : 400 ≤ resp.status_code ∧ resp.status_code < 600
    · simp only [if_pos h400]
    · cases hjb : resp.jsonBody <;> by_cases hs : stream <;>
        simp [if_neg h400, hs, hjb]
  | sslError msg => rfl
  | connectionError msg => rfl
  | timeout msg => rfl
  | requestException msg => rfl
  | valueError msg => rfl

theorem proxy_request_ok_http_error (inbound : InboundRequest) (resp : UpstreamResponse)
    (method endpoint : String) (headersArg : Option Dict) (json_data : Option Json)
    (params : Option Dict) (stream : Bool)
    (hauth : ¬ (headerGet inbound.headers "Authorization").getD "" = "")
    (h400 : 400 ≤ resp.status_code) (h600 : resp.status_code < 600) :
    proxy_request inbound (.ok resp) method endpoint headersArg json_data params stream =
      ⟨500, errorJson (httpErrorMsg resp),
        [mkCall inbound headersArg json_data method endpoint params stream]⟩ := by
  unfold proxy_request
  rw [if_neg hauth]
  have h2 : ¬ resp.status_code < 400 := Nat.not_lt.mpr h400
  simp [h400, h600, h2]

theorem proxy_request_ok_stream (inbound : InboundRequest) (resp : UpstreamResponse)
    (method endpoint : String) (headersArg : Option Dict) (json_data : Option Json)
    (params : Option Dict)
    (hauth : ¬ (headerGet inbound.headers "Authorization").getD "" = "")
    (hstatus : ¬ (400 ≤ resp.status_code ∧ resp.status_code < 600)) :
    proxy_request inbound (.ok resp) method endpoint headersArg json_data params true =
      ⟨200,
        .stream "text/event-stream"
          (((bytesSplitlines resp.content).filter (fun l => !l.isEmpty)).map
            (fun l => l ++ [10, 10])),
        [mkCall inbound headersArg json_data method endpoint params true]⟩ := by
  unfold proxy_request
  rw [if_neg hauth]
  simp [hstatus]

theorem proxy_request_ok_buffered_failed (inbound : InboundRequest) (resp : UpstreamResponse)
    (method endpoint : String) (headersArg : Option Dict) (json_data : Option Json)
    (params : Option Dict) (msg : String)
    (hauth : ¬ (headerGet inbound.headers "Authorization").getD "" = "")
    (hstatus : ¬ (400 ≤ resp.status_code ∧ resp.status_code < 600))
    (hjson : resp.jsonBody = .failed msg) :
    proxy_request inbound (.ok resp) method endpoint headersArg json_data params false =
      ⟨500,
        .json (.obj (jfields
          [("error", .str ("Invalid JSON response: " ++ msg)),
           ("raw_content", .str (rawSnippet resp.content))])),
        [mkCall inbound headersArg json_data method endpoint params false]⟩ := by
  unfold proxy_request
  rw [if_neg hauth]
  simp [hstatus, hjson]

theorem proxy_request_ok_buffered_ok (inbound : InboundRequest) (resp : UpstreamResponse)
    (method endpoint : String) (headersArg : Option Dict) (json_data : Option Json)
    (params : Option Dict) (v : Json)
    (hauth : ¬ (headerGet inbound.headers "Authorization").getD "" = "")
    (hstatus : ¬ (400 ≤ resp.status_code ∧ resp.status_code < 600))
    (hjson : resp.jsonBody = .ok v) :
    proxy_request inbound (.ok resp) method endpoint headersArg json_data params false =
      ⟨200, .json v,
        [mkCall inbound headersArg json_data method endpoint params false]⟩ := by
  unfold proxy_request
  rw [if_neg hauth]
  simp [hstatus, hjson]

/-! Claim theorems. -/

/-- C1: for every inbound request whose headers contain no Authorization entry
(case-insensitive lookup), proxy_request answers outward status 401 with body
the JSON object whose error field says the Authorization header is required,
and the tunnel transport is never invoked, whatever the dispatch arguments;
consequently the GET route answers exactly that response, the POST route
performs zero transport invocations on every branch, and the POST route answers
exactly that response whenever it reaches dispatch (parsed object body). -/
theorem c1_missing_auth_rejected (inbound : InboundRequest) (outcome : TransportOutcome)
    (h : headerGet inbound.headers "Authorization" = none) :
    (∀ method endpoint headersArg json_data params stream,
        proxy_request inbound outcome method endpoint headersArg json_data params stream =
          ⟨401, errorJson "Authorization header is required", []⟩) ∧
    (∀ path, proxy_generic_get inbound outcome path =
        ⟨401, errorJson "Authorization header is required", []⟩) ∧
    (∀ path, (proxy_generic_post inbound outcome path).calls = []) ∧
    (∀ path fields, inbound.getJson = .parsed (.obj fields) →
        proxy_generic_post inbound outcome path =
          ⟨401, errorJson "Authorization header is required", []⟩) := by
  have hblank : (headerGet inbound.headers "Authorization").getD "" = "" := by
    rw [h]
    rfl
  have hpr : ∀ method endpoint headersArg json_data params stream,
      proxy_request inbound outcome method endpoint headersArg json_data params stream =
        ⟨401, errorJson "Authorization header is required", []⟩ :=
    fun method endpoint headersArg json_data params stream =>
      proxy_request_noauth inbound outcome method endpoint headersArg json_data params stream
        hblank
  refine ⟨hpr, fun path => hpr _ _ _ _ _ _, ?_, ?_⟩
  · intro path
    unfold proxy_generic_post
    cases inbound.getJson with
    | failure => rfl
    | parsed data =>
      cases data with
      | null => rfl
      | bool b => rfl
      | num n => rfl
      | str s => rfl
      | arr es => rfl
      | obj fields =>
        show (proxy_request inbound outcome "POST" path none (some (.obj fields)) none
            (((objGet fields "stream").getD (.bool false)).isTruthy)).calls = []
        rw [hpr]
  · intro path fields hf
    unfold proxy_generic_post
    rw [hf]
    exact hpr _ _ _ _ _ _

/-- C1 witness: a concrete request without Authorization through the GET route. -/
theorem c1_missing_auth_rejected_witness :
    headerGet inboundNoAuth.headers "Authorization" = none ∧
    proxy_generic_get inboundNoAuth (.ok resp404) "models" =
      ⟨401, errorJson "Authorization header is required", []⟩ :=
  ⟨by decide,
    (c1_missing_auth_rejected inboundNoAuth (.ok resp404) (by decide)).2.1 "models"⟩

/-- C2 counterexample: against an upstream 404 whose body is the JSON object
with error field "not found", a GET through the proxy answers outward status
500 (not 404: the guard on e.response evaluates requests Response truthiness,
which is false for an error response, so the else arm 500 is taken), and the
outward body is the jsonify of the HTTPError message, not the upstream body. -/
theorem c2_upstream_error_not_passed_verbatim :
    (proxy_generic_get (inboundWith .failure) (.ok resp404) "models").status = 500 ∧
    (proxy_generic_get (inboundWith .failure) (.ok resp404) "models").status ≠ 404 ∧
    (proxy_generic_get (inboundWith .failure) (.ok resp404) "models").body ≠
      .json (.obj (jfields [("error", .str "not found")])) ∧
    (proxy_generic_get (inboundWith .failure) (.ok resp404) "models").body =
      errorJson "404 Client Error: Not Found for url: https://api.openai.com/v1/models" :=
  ⟨by decide, by decide, by decide, by decide⟩

/-- C2 (amended): when the transport call succeeds and the upstream status lies
in [400, 600), raise_for_status raises HTTPError and the proxy answers with
outward status 500 — not the upstream status, which survives only inside the
message text — and with body the jsonify of a dict whose error field is the
HTTPError message quoting the upstream status code, reason and url; the
upstream message body is discarded.  Exactly one transport call is made. -/
theorem c2_upstream_error_mapped (inbound : InboundRequest) (resp : UpstreamResponse)
    (method endpoint : String) (headersArg : Option Dict) (json_data : Option Json)
    (params : Option Dict) (stream : Bool)
    (hauth : ¬ (headerGet inbound.headers "Authorization").getD "" = "")
    (h400 : 400 ≤ resp.status_code) (h600 : resp.status_code < 600) :
    proxy_request inbound (.ok resp) method endpoint headersArg json_data params stream =
      ⟨500, errorJson (httpErrorMsg resp),
        [mkCall inbound headersArg json_data method endpoint params stream]⟩ :=
  proxy_request_ok_http_error inbound resp method endpoint headersArg json_data params stream
    hauth h400 h600

/-- C2 witness: the amended mapping evaluated on the concrete 404 response. -/
theorem c2_upstream_error_mapped_witness :
    proxy_generic_get (inboundWith .failure) (.ok resp404) "models" =
      ⟨500,
        errorJson "404 Client Error: Not Found for url: https://api.openai.com/v1/models",
        [mkCall (inboundWith .failure) none none "GET" "models"
          (some (inboundWith .failure).args) false]⟩ := by
  have h := c2_upstream_error_mapped (inboundWith .failure) resp404 "GET" "models" none none
    (some (inboundWith .failure).args) false (by decide) (by decide) (by decide)
  exact h.trans (by decide)

/-- C3: for an inbound header mapping without duplicate names, the outbound
mapping produced by forwarded_headers contains exactly those inbound entries
whose name is not case-insensitively equal to Host, each with value unchanged;
in particular an Authorization entry is carried through unchanged, and the
mapping is returned (never rejected) also when Authorization is absent, since
no hypothesis on Authorization is needed. -/
theorem c3_forwarded_headers_spec (hs : Dict) (hnodup : (hs.map Prod.fst).Nodup) :
    ∀ k v, (k, v) ∈ forwarded_headers hs ↔ ((k, v) ∈ hs ∧ lowerAscii k ≠ "host") := by
  intro k v
  rw [forwarded_headers_eq_filter hs hnodup, List.mem_filter]
  constructor
  · rintro ⟨h1, h2⟩
    exact ⟨h1, by simpa using h2⟩
  · rintro ⟨h1, h2⟩
    exact ⟨h1, by simpa using h2⟩

/-- C3 witness: concrete evaluation on a mapping with Host, Authorization and a
custom header. -/
theorem c3_forwarded_headers_spec_witness :
    (("Authorization", "Bearer k") ∈
      forwarded_headers
        [("Host", "proxy.local"), ("Authorization", "Bearer k"), ("Accept", "text/plain")]) ∧
    ¬ (("Host", "proxy.local") ∈
      forwarded_headers
        [("Host", "proxy.local"), ("Authorization", "Bearer k"), ("Accept", "text/plain")]) := by
  constructor
  · exact (c3_forwarded_headers_spec _ (by decide) "Authorization" "Bearer k").mpr
      ⟨by decide, by decide⟩
  · intro hmem
    have h2 := ((c3_forwarded_headers_spec _ (by decide) "Host" "proxy.local").mp hmem).2
    exact h2 (by decide)

/-- C4: with the credential gate passed, each transport-level failure is mapped
to exactly one structured JSON error response with no failure escaping this
classification: TLS failure to 502, tunnel connection failure to 503, upstream
timeout to 504 with a body naming the timeout, any other request exception to
500, and the invalid-json-data ValueError to 400; each branch performs exactly
one transport invocation, so no retry occurs. -/
theorem c4_transport_failure_mapping (inbound : InboundRequest)
    (method endpoint : String) (headersArg : Option Dict) (json_data : Option Json)
    (params : Option Dict) (stream : Bool) (msg : String)
    (hauth : ¬ (headerGet inbound.headers "Authorization").getD "" = "") :
    (proxy_request inbound (.sslError msg) method endpoint headersArg json_data params stream =
      ⟨502, errorJson ("SSL error: " ++ msg),
        [mkCall inbound headersArg json_data method endpoint params stream]⟩) ∧
    (proxy_request inbound (.connectionError msg) method endpoint headersArg json_data params
        stream =
      ⟨503, errorJson "Connection failed",
        [mkCall inbound headersArg json_data method endpoint params stream]⟩) ∧
    (proxy_request inbound (.timeout msg) method endpoint headersArg json_data params stream =
      ⟨504, errorJson "Request timed out",
        [mkCall inbound headersArg json_data method endpoint params stream]⟩) ∧
    (proxy_request inbound (.requestException msg) method endpoint headersArg json_data params
        stream =
      ⟨500, errorJson msg,
        [mkCall inbound headersArg json_data method endpoint params stream]⟩) ∧
    (proxy_request inbound (.valueError msg) method endpoint headersArg json_data params stream =
      ⟨400, errorJson "Invalid JSON data",
        [mkCall inbound headersArg json_data method endpoint params stream]⟩) := by
  refine ⟨?_, ?_, ?_, ?_, ?_⟩ <;>
    · unfold proxy_request
      rw [if_neg hauth]

/-- C4 witness: the timeout branch evaluated on a concrete request. -/
theorem c4_transport_failure_mapping_witness :
    proxy_request (inboundWith .failure) (.timeout "upstream stalled") "GET" "models" none none
        (some [("limit", "5")]) false =
      ⟨504, errorJson "Request timed out",
        [mkCall (inboundWith .failure) none none "GET" "models" (some [("limit", "5")]) false]⟩ :=
  (c4_transport_failure_mapping (inboundWith .failure) "GET" "models" none none
    (some [("limit", "5")]) false "upstream stalled" (by decide)).2.2.1

/-- C5: a non-streaming dispatch whose transport call succeeded with a status
for which raise_for_status does not raise, but whose body fails JSON parsing,
answers outward status 500 with a payload carrying the descriptive message and
a raw_content field equal to rawSnippet of the body: the UTF-8 decoding
truncated to 400 characters when decoding succeeds, the truncated str of the
raw bytes when it fails, and in either case at most 400 characters. -/
theorem c5_invalid_json_fallback (inbound : InboundRequest) (resp : UpstreamResponse)
    (method endpoint : String) (headersArg : Option Dict) (json_data : Option Json)
    (params : Option Dict) (msg : String)
    (hauth : ¬ (headerGet inbound.headers "Authorization").getD "" = "")
    (hstatus : ¬ (400 ≤ resp.status_code ∧ resp.status_code < 600))
    (hjson : resp.jsonBody = .failed msg) :
    (proxy_request inbound (.ok resp) method endpoint headersArg json_data params false =
      ⟨500,
        .json (.obj (jfields
          [("error", .str ("Invalid JSON response: " ++ msg)),
           ("raw_content", .str (rawSnippet resp.content))])),
        [mkCall inbound headersArg json_data method endpoint params false]⟩) ∧
    (∀ s, utf8Decode resp.content = some s → rawSnippet resp.content = takeChars 400 s) ∧
    (utf8Decode resp.content = none →
      rawSnippet resp.content = takeChars 400 (bytesRepr resp.content)) ∧
    (rawSnippet resp.content).length ≤ 400 := by
  have hsome : ∀ s, utf8Decode resp.content = some s →
      rawSnippet resp.content = takeChars 400 s := by
    intro s hdec
    unfold rawSnippet
    rw [hdec]
  have hnone : utf8Decode resp.content = none →
      rawSnippet resp.content = takeChars 400 (bytesRepr resp.content) := by
    intro hdec
    unfold rawSnippet
    rw [hdec]
  refine ⟨proxy_request_ok_buffered_failed inbound resp method endpoint headersArg json_data
      params msg hauth hstatus hjson, hsome, hnone, ?_⟩
  cases hdec : utf8Decode resp.content with
  | some s =>
    rw [hsome s hdec]
    show (s.toList.take 400).length ≤ 400
    rw [List.length_take]
    exact Nat.min_le_left _ _
  | none =>
    rw [hnone hdec]
    show ((bytesRepr resp.content).toList.take 400).length ≤ 400
    rw [List.length_take]
    exact Nat.min_le_left _ _

/-- C5 witness: a 200 with body not-json through the GET route answers 500 with
raw_content equal to not-json. -/
theorem c5_invalid_json_fallback_witness :
    proxy_generic_get (inboundWith .failure) (.ok resp200NotJson) "models" =
      ⟨500,
        .json (.obj (jfields
          [("error", .str "Invalid JSON response: Expecting value: line 1 column 1 (char 0)"),
           ("raw_content", .str "not-json")])),
        [mkCall (inboundWith .failure) none none "GET" "models"
          (some (inboundWith .failure).args) false]⟩ := by
  have h := (c5_invalid_json_fallback (inboundWith .failure) resp200NotJson "GET" "models"
    none none (some (inboundWith .failure).args) "Expecting value: line 1 column 1 (char 0)"
    (by decide) (by decide) (by decide)).1
  exact h.trans (by decide)

/-- C6: a streaming dispatch in the success branch answers outward status 200
under the text/event-stream mimetype with body the sequence of non-empty lines
of the upstream body bytes in their original order, each suffixed with two LF
bytes (empty lines dropped), terminating with the finite upstream body; every
emitted chunk arises from one non-empty line. -/
theorem c6_streaming_lines (inbound : InboundRequest) (resp : UpstreamResponse)
    (method endpoint : String) (headersArg : Option Dict) (json_data : Option Json)
    (params : Option Dict)
    (hauth : ¬ (headerGet inbound.headers "Authorization").getD "" = "")
    (hstatus : ¬ (400 ≤ resp.status_code ∧ resp.status_code < 600)) :
    (proxy_request inbound (.ok resp) method endpoint headersArg json_data params true =
      ⟨200,
        .stream "text/event-stream"
          (((bytesSplitlines resp.content).filter (fun l => !l.isEmpty)).map
            (fun l => l ++ [10, 10])),
        [mkCall inbound headersArg json_data method endpoint params true]⟩) ∧
    (∀ c ∈ ((bytesSplitlines resp.content).filter (fun l => !l.isEmpty)).map
        (fun l => l ++ [10, 10]),
      ∃ l ∈ bytesSplitlines resp.content, l ≠ [] ∧ c = l ++ [10, 10]) := by
  constructor
  · exact proxy_request_ok_stream inbound resp method endpoint headersArg json_data params
      hauth hstatus
  · intro c hc
    rcases List.mem_map.mp hc with ⟨l, hl, rfl⟩
    rcases List.mem_filter.mp hl with ⟨hl2, hne⟩
    refine ⟨l, hl2, ?_, rfl⟩
    cases l with
    | nil => simp at hne
    | cons a t => simp

/-- C6 witness: a streaming POST against a 200 upstream emitting three
line-delimited chunks yields exactly those chunks each followed by a blank
line. -/
theorem c6_streaming_lines_witness :
    proxy_request (inboundWith (.parsed (.obj (jfields [("stream", .bool true)]))))
        (.ok resp200Stream) "POST" "chat/completions" none
        (some (.obj (jfields [("stream", .bool true)]))) none true =
      ⟨200,
        .stream "text/event-stream"
          [asciiBytes "data: one\n\n", asciiBytes "data: two\n\n", asciiBytes "data: [DONE]\n\n"],
        [mkCall (inboundWith (.parsed (.obj (jfields [("stream", .bool true)])))) none
          (some (.obj (jfields [("stream", .bool true)]))) "POST" "chat/completions" none true]⟩ := by
  have h := (c6_streaming_lines (inboundWith (.parsed (.obj (jfields [("stream", .bool true)]))))
    resp200Stream "POST" "chat/completions" none
    (some (.obj (jfields [("stream", .bool true)]))) none (by decide) (by decide)).1
  exact h.trans (by decide)

/-- C7 counterexample: a POST body that is present and parsable but not a JSON
object is never forwarded: a JSON null body yields 400 with zero transport
invocations, and a JSON array body hits the uncaught AttributeError of
data.get, yielding the framework 500 page with zero transport invocations --
contradicting the claim that every parsable body is forwarded whole. -/
theorem c7_parsable_body_not_forwarded :
    ((proxy_generic_post (inboundWith (.parsed .null)) (.timeout "upstream stalled")
        "chat/completions").calls = []) ∧
    ((proxy_generic_post (inboundWith (.parsed .null)) (.timeout "upstream stalled")
        "chat/completions").status = 400) ∧
    ((proxy_generic_post (inboundWith (.parsed (.arr (.cons (.num 1) .nil))))
        (.timeout "upstream stalled") "chat/completions").calls = []) ∧
    ((proxy_generic_post (inboundWith (.parsed (.arr (.cons (.num 1) .nil))))
        (.timeout "upstream stalled") "chat/completions").status = 500) :=
  ⟨by decide, by decide, by decide, by decide⟩

/-- C7 (amended): a POST whose body parse fails (absent or malformed) answers
400 with zero transport invocations; a parsed JSON null body answers 400 with
the explicit error message and zero transport invocations; when the parsed body
is a JSON object it is dispatched whole, unstripped, with the truthiness of its
stream field (default false) as the streaming flag, and with the credential
present the single transport call carries exactly that object; any other parsed
value is never forwarded and yields the framework 500 page. -/
theorem c7_post_body_gate (inbound : InboundRequest) (outcome : TransportOutcome)
    (path : String) :
    (inbound.getJson = .failure →
      proxy_generic_post inbound outcome path = ⟨400, .framework, []⟩) ∧
    (inbound.getJson = .parsed .null →
      proxy_generic_post inbound outcome path =
        ⟨400, errorJson "Request body must be JSON", []⟩) ∧
    (∀ fields, inbound.getJson = .parsed (.obj fields) →
      proxy_generic_post inbound outcome path =
        proxy_request inbound outcome "POST" path none (some (.obj fields)) none
          (((objGet fields "stream").getD (.bool false)).isTruthy) ∧
      (¬ (headerGet inbound.headers "Authorization").getD "" = "" →
        (proxy_generic_post inbound outcome path).calls =
          [mkCall inbound none (some (.obj fields)) "POST" path none
            (((objGet fields "stream").getD (.bool false)).isTruthy)])) ∧
    (∀ data, inbound.getJson = .parsed data → (∀ fields, data ≠ .obj fields) →
      data ≠ .null →
      proxy_generic_post inbound outcome path = ⟨500, .framework, []⟩) := by
  refine ⟨?_, ?_, ?_, ?_⟩
  · intro hf
    unfold proxy_generic_post
    rw [hf]
  · intro hf
    unfold proxy_generic_post
    rw [hf]
  · intro fields hf
    have heq : proxy_generic_post inbound outcome path =
        proxy_request inbound outcome "POST" path none (some (.obj fields)) none
          (((objGet fields "stream").getD (.bool false)).isTruthy) := by
      unfold proxy_generic_post
      rw [hf]
    refine ⟨heq, ?_⟩
    intro hauth
    rw [heq]
    exact proxy_request_calls_eq inbound outcome "POST" path none (some (.obj fields)) none
      (((objGet fields "stream").getD (.bool false)).isTruthy) hauth
  · intro data hf hobj hnull
    unfold proxy_generic_post
    rw [hf]
    cases data with
    | null => exact absurd rfl hnull
    | obj fields => exact absurd rfl (hobj fields)
    | bool b => rfl
    | num n => rfl
    | str s => rfl
    | arr es => rfl

/-- C7 witness: a parsed object body with a truthy stream field is dispatched
whole and unstripped, here into the timeout branch. -/
theorem c7_post_body_gate_witness :
    proxy_generic_post
        (inboundWith (.parsed (.obj (jfields [("model", .str "gpt-4"), ("stream", .bool true)]))))
        (.timeout "upstream stalled") "chat/completions" =
      ⟨504, errorJson "Request timed out",
        [mkCall (inboundWith (.parsed (.obj (jfields
            [("model", .str "gpt-4"), ("stream", .bool true)])))) none
          (some (.obj (jfields [("model", .str "gpt-4"), ("stream", .bool true)])))
          "POST" "chat/completions" none true]⟩ := by
  have h := ((c7_post_body_gate
    (inboundWith (.parsed (.obj (jfields [("model", .str "gpt-4"), ("stream", .bool true)]))))
    (.timeout "upstream stalled") "chat/completions").2.2.1
    (jfields [("model", .str "gpt-4"), ("stream", .bool true)]) rfl).1
  exact h.trans (by decide)

/-- C8 counterexample: a POST whose parsed body is the empty JSON object is
dispatched with that object as the json payload (so a JSON body is being sent),
yet the single transport call carries no Content-Type entry, because the line
97 guard tests Python truthiness of json_data and an empty dict is falsy. -/
theorem c8_empty_object_body_without_content_type :
    (proxy_generic_post (inboundWith (.parsed (.obj .nil))) (.timeout "upstream stalled")
        "chat/completions").calls.map
      (fun c => (c.jsonData, List.lookup "Content-Type" c.headers)) =
      [(some (.obj .nil), none)] := by
  decide

/-- C8 (amended): with the credential present and the sanitized mapping in use
(headers argument none, as both routes pass), the headers of the single
transport call gain a Content-Type application/json entry exactly when
json_data is truthy (a non-empty object; GET passes none), and no entry other
than Content-Type is added, removed or altered relative to forwarded_headers. -/
theorem c8_content_type_added_iff_truthy (inbound : InboundRequest)
    (outcome : TransportOutcome) (method endpoint : String) (json_data : Option Json)
    (params : Option Dict) (stream : Bool)
    (hauth : ¬ (headerGet inbound.headers "Authorization").getD "" = "") :
    ((proxy_request inbound outcome method endpoint none json_data params stream).calls.map
        (fun c => List.lookup "Content-Type" c.headers) =
      [if (json_data.map Json.isTruthy).getD false then some "application/json"
       else List.lookup "Content-Type" (forwarded_headers inbound.headers)]) ∧
    (∀ k, k ≠ "Content-Type" →
      (proxy_request inbound outcome method endpoint none json_data params stream).calls.map
          (fun c => List.lookup k c.headers) =
        [List.lookup k (forwarded_headers inbound.headers)]) ∧
    ((json_data.map Json.isTruthy).getD false = false →
      (proxy_request inbound outcome method endpoint none json_data params stream).calls.map
          (fun c => c.headers) =
        [forwarded_headers inbound.headers]) := by
  have hc := proxy_request_calls_eq inbound outcome method endpoint none json_data params stream
    hauth
  have hsent : (mkCall inbound none json_data method endpoint params stream).headers =
      sentHeaders inbound none json_data := rfl
  refine ⟨?_, ?_, ?_⟩
  · rw [hc]
    simp only [List.map_cons, List.map_nil, hsent]
    cases json_data with
    | none => rfl
    | some v =>
      cases hv : v.isTruthy with
      | true =>
        have : sentHeaders inbound none (some v) =
            dictSet (forwarded_headers inbound.headers) "Content-Type" "application/json" := by
          simp [sentHeaders, hv]
        rw [this, lookup_dictSet_self]
        simp [hv]
      | false =>
        have : sentHeaders inbound none (some v) = forwarded_headers inbound.headers := by
          simp [sentHeaders, hv]
        rw [this]
        simp [hv]
  · intro k hk
    rw [hc]
    simp only [List.map_cons, List.map_nil, hsent]
    cases json_data with
    | none => rfl
    | some v =>
      cases hv : v.isTruthy with
      | true =>
        have : sentHeaders inbound none (some v) =
            dictSet (forwarded_headers inbound.headers) "Content-Type" "application/json" := by
          simp [sentHeaders, hv]
        rw [this, lookup_dictSet_ne _ _ _ _ hk]
      | false =>
        have : sentHeaders inbound none (some v) = forwarded_headers inbound.headers := by
          simp [sentHeaders, hv]
        rw [this]
  · intro hfalse
    rw [hc]
    simp only [List.map_cons, List.map_nil, hsent]
    cases json_data with
    | none => rfl
    | some v =>
      have hv : v.isTruthy = false := by simpa using hfalse
      have : sentHeaders inbound none (some v) = forwarded_headers inbound.headers := by
        simp [sentHeaders, hv]
      rw [this]

/-- C8 witness: a truthy object body makes the single transport call carry the
added Content-Type entry. -/
theorem c8_content_type_added_iff_truthy_witness :
    (proxy_request (inboundWith .failure) (.timeout "upstream stalled") "POST"
        "chat/completions" none (some (.obj (jfields [("model", .str "gpt-4")]))) none
        false).calls.map (fun c => List.lookup "Content-Type" c.headers) =
      [some "application/json"] := by
  have h := (c8_content_type_added_iff_truthy (inboundWith .failure)
    (.timeout "upstream stalled") "POST" "chat/completions"
    (some (.obj (jfields [("model", .str "gpt-4")]))) none false (by decide)).1
  exact h.trans (by decide)

/-- C9 counterexample: an upstream status of 600 is not below 400, yet with
streaming requested the proxy produces an event-stream body, because
raise_for_status raises only for statuses in [400, 600). -/
theorem c9_status_600_still_streams :
    400 ≤ resp600.status_code ∧
    (proxy_generic_post (inboundWith (.parsed (.obj (jfields [("stream", .bool true)]))))
        (.ok resp600) "chat/completions").body =
      .stream "text/event-stream" [asciiBytes "data: one\n\n", asciiBytes "data: two\n\n"] :=
  ⟨by decide, by decide⟩

/-- C9 (amended): with streaming requested, a streamed event-stream body is
produced exactly when the upstream status lies outside [400, 600) — the range
for which raise_for_status raises, which the status check applies before the
streaming branch — and for statuses inside that range the streaming request
takes the same error path as a buffered one, yielding the identical outward
response and never a partial event stream. -/
theorem c9_stream_iff_not_error_status (inbound : InboundRequest) (resp : UpstreamResponse)
    (method endpoint : String) (headersArg : Option Dict) (json_data : Option Json)
    (params : Option Dict)
    (hauth : ¬ (headerGet inbound.headers "Authorization").getD "" = "") :
    ((∃ mt chunks,
        (proxy_request inbound (.ok resp) method endpoint headersArg json_data params
          true).body = .stream mt chunks) ↔
      ¬ (400 ≤ resp.status_code ∧ resp.status_code < 600)) ∧
    (400 ≤ resp.status_code → resp.status_code < 600 →
      proxy_request inbound (.ok resp) method endpoint headersArg json_data params true =
        ⟨500, errorJson (httpErrorMsg resp),
          [mkCall inbound headersArg json_data method endpoint params true]⟩ ∧
      (proxy_request inbound (.ok resp) method endpoint headersArg json_data params true).status =
        (proxy_request inbound (.ok resp) method endpoint headersArg json_data params
          false).status ∧
      (proxy_request inbound (.ok resp) method endpoint headersArg json_data params true).body =
        (proxy_request inbound (.ok resp) method endpoint headersArg json_data params
          false).body) := by
  constructor
  · constructor
    · intro hex hcond
      rcases hex with ⟨mt, chunks, hbody⟩
      rw [proxy_request_ok_http_error inbound resp method endpoint headersArg json_data params
        true hauth hcond.1 hcond.2] at hbody
      simp [errorJson] at hbody
    · intro hcond
      rw [proxy_request_ok_stream inbound resp method endpoint headersArg json_data params
        hauth hcond]
      exact ⟨"text/event-stream", _, rfl⟩
  · intro h400 h600
    have ht := proxy_request_ok_http_error inbound resp method endpoint headersArg json_data
      params true hauth h400 h600
    have hf := proxy_request_ok_http_error inbound resp method endpoint headersArg json_data
      params false hauth h400 h600
    refine ⟨ht, ?_, ?_⟩
    · rw [ht, hf]
    · rw [ht, hf]

/-- C9 witness: a streaming request against an upstream 502 takes the error
path and yields the same status and body as a buffered request. -/
theorem c9_stream_iff_not_error_status_witness :
    proxy_request (inboundWith .failure)
        (.ok ⟨502, "Bad Gateway", "https://api.openai.com/v1/chat/completions", [], .failed "e"⟩)
        "POST" "chat/completions" none (some (.obj (jfields [("stream", .bool true)]))) none
        true =
      ⟨500,
        errorJson "502 Server Error: Bad Gateway for url: https://api.openai.com/v1/chat/completions",
        [mkCall (inboundWith .failure) none (some (.obj (jfields [("stream", .bool true)])))
          "POST" "chat/completions" none true]⟩ := by
  have h := ((c9_stream_iff_not_error_status (inboundWith .failure)
    ⟨502, "Bad Gateway", "https://api.openai.com/v1/chat/completions", [], .failed "e"⟩
    "POST" "chat/completions" none (some (.obj (jfields [("stream", .bool true)]))) none
    (by decide)).2 (by decide) (by decide)).1
  exact h.trans (by decide)

/-- C10: the POST route invokes the dispatcher with no params argument, so
every transport call it performs carries params none and any inbound query
string is discarded, while every transport call performed by the GET route
carries exactly the inbound query parameters. -/
theorem c10_query_params_forwarding (inbound : InboundRequest) (outcome : TransportOutcome)
    (path : String) :
    ((proxy_generic_get inbound outcome path).calls.map TransportCall.params =
      (proxy_generic_get inbound outcome path).calls.map (fun _ => some inbound.args)) ∧
    ((proxy_generic_post inbound outcome path).calls.map TransportCall.params =
      (proxy_generic_post inbound outcome path).calls.map (fun _ => (none : Option Dict))) := by
  have hdisp : ∀ (method endpoint : String) (headersArg : Option Dict)
      (json_data : Option Json) (params : Option Dict) (stream : Bool),
      (proxy_request inbound outcome method endpoint headersArg json_data params stream).calls.map
          TransportCall.params =
        (proxy_request inbound outcome method endpoint headersArg json_data params
          stream).calls.map (fun _ => params) := by
    intro method endpoint headersArg json_data params stream
    by_cases hauth : (headerGet inbound.headers "Authorization").getD "" = ""
    · rw [proxy_request_noauth inbound outcome method endpoint headersArg json_data params
        stream hauth]
      rfl
    · rw [proxy_request_calls_eq inbound outcome method endpoint headersArg json_data params
        stream hauth]
      rfl
  constructor
  · exact hdisp "GET" path none none (some inbound.args) false
  · unfold proxy_generic_post
    cases inbound.getJson with
    | failure => rfl
    | parsed data =>
      cases data with
      | null => rfl
      | bool b => rfl
      | num n => rfl
      | str s => rfl
      | arr es => rfl
      | obj fields =>
        exact hdisp "POST" path none (some (.obj fields)) none
          (((objGet fields "stream").getD (.bool false)).isTruthy)

end OpenAIProxy
